import Mathlib

/-!
Shallow embedding of the KPI-Generator aggregation pipeline
(`src/app.py`, class `Pipeline`).

The pipeline ingests an Excel workbook with four sheets (CHO, CHT, CHD,
CHE), validates their presence, normalizes each sheet (column names are
lower-cased and trimmed, the `date` column is parsed, `agentmis` is
coerced to text), builds the deduplicated union of (date, agentmis)
pairs, computes one aggregate table per sheet via a group-by, left-joins
the four aggregates onto the base, and fills missing metrics with 0.

Modelling notes:
* A spreadsheet cell is the inductive `Cell`: missing (pandas NaN),
  text, integer, or date.  Dates are encoded as the natural number
  `yyyymmdd`, which preserves the calendar order used by min/max.
* `pd.to_datetime` is abstracted by `toDatetime`: cells that already
  hold a date (or an integer timestamp) parse, text and missing cells
  do not and raise, which models the `DateParseError` path.  (pandas
  parses some date-looking strings; that permissiveness is orthogonal
  to every property proved here, which only distinguish "parses" from
  "raises".)
* `astype(str)` is `pyStr`; on NaN pandas produces the text form of the
  float NaN, modelled by the string value of nan.
* `groupby(['date','agentmis'])` is modelled by listing the distinct
  keys in first-occurrence order and filtering the rows of each key
  (pandas sorts group keys; no property below depends on row order).
* `merge(..., how='left')` is modelled faithfully: each left row
  produces one output row per matching right row, or a single
  null-filled row when there is no match.
* Sheets are typed row lists over the schema documented for each sheet
  (column-name lower-casing is therefore implicit in the field names).
* The stateful `Pipeline` object is modelled by explicit data flow: the
  entry point `buildDb` returns the final table together with the
  `stats` record the Python code accumulates on `self.stats`, and every
  failure (`raise`) is an `Except.error`.
-/

namespace KpiGen

/-- A spreadsheet cell as loaded by pandas: missing (NaN), text,
integer, or date (encoded `yyyymmdd`). -/
inductive Cell where
  | null : Cell
  | str : String → Cell
  | num : Int → Cell
  | date : Nat → Cell
deriving DecidableEq, Repr

/-- Left-pad the decimal form of `n` to two digits (strftime `%d`/`%m`). -/
def pad2 (n : Nat) : String :=
  if n < 10 then "0" ++ toString n else toString n

/-- Left-pad the decimal form of `n` to four digits (strftime `%Y`). -/
def pad4 (n : Nat) : String :=
  if n < 10 then "000" ++ toString n
  else if n < 100 then "00" ++ toString n
  else if n < 1000 then "0" ++ toString n
  else toString n

/-- `strftime('%Y-%m-%d')` on a date encoded `yyyymmdd`. -/
def fmtDate (d : Nat) : String :=
  pad4 (d / 10000) ++ "-" ++ pad2 (d / 100 % 100) ++ "-" ++ pad2 (d % 100)

/-- ASCII lower-casing of one character (the character-level behaviour
of Python `str.lower()` on the ASCII markers compared by the pipeline). -/
def lowerChar (c : Char) : Char :=
  if 65 ≤ c.toNat ∧ c.toNat ≤ 90 then Char.ofNat (c.toNat + 32) else c

/-- Python `str.lower()` / pandas `.str.lower()` (ASCII). -/
def pyLower (s : String) : String := String.mk (s.data.map lowerChar)

/-- Python `str()` / pandas `astype(str)` on a cell.  A missing value
(NaN) stringifies to the text form of the float NaN; a datetime cell
stringifies with its midnight time component. -/
def pyStr : Cell → String
  | Cell.null => "nan"
  | Cell.str s => s
  | Cell.num n => toString n
  | Cell.date d => fmtDate d ++ " 00:00:00"

/-- `pd.to_datetime` on one cell: date cells (and integer timestamps)
parse; text and missing cells raise a `DateParseError`. -/
def toDatetime : Cell → Except String Nat
  | Cell.date d => Except.ok d
  | Cell.num n => Except.ok n.toNat
  | Cell.str s => Except.error (("DateParseError: ") ++ s)
  | Cell.null => Except.error ("DateParseError: missing value")

/-- Whether a cell is compatible with a numeric dtype: a column whose
cells are all numbers or NaN gets a numeric dtype from pandas, any text
(or datetime) cell forces a non-numeric dtype. -/
def isNumericCell : Cell → Bool
  | Cell.null => true
  | Cell.num _ => true
  | _ => false

/-- Whether a cell is non-missing (pandas `count()` counts these). -/
def cellNonNull : Cell → Bool
  | Cell.null => false
  | _ => true

/-- Worker for `dropDuplicates`: keep the elements not seen before, in
first-occurrence order. -/
def dropDupAux {α : Type} [DecidableEq α] (seen : List α) : List α → List α
  | [] => []
  | x :: xs => if x ∈ seen then dropDupAux seen xs else x :: dropDupAux (x :: seen) xs

/-- pandas `drop_duplicates` / first-occurrence deduplication. -/
def dropDuplicates {α : Type} [DecidableEq α] (l : List α) : List α :=
  dropDupAux [] l

/-- The (date, agentmis) record key. -/
abbrev Key := Nat × String

/-- Raw CHO (attendance) row: `date`, `agentmis`, `status`. -/
structure RawRowCHO where
  date : Cell
  agentmis : Cell
  status : Cell
deriving DecidableEq, Repr

/-- Raw CHT (call handling) row: `date`, `agentmis`, `ans_vol`, `aht`, `art`. -/
structure RawRowCHT where
  date : Cell
  agentmis : Cell
  ans_vol : Cell
  aht : Cell
  art : Cell
deriving DecidableEq, Repr

/-- Raw CHD (satisfaction) row: `date`, `agentmis`, `score`, `sloved`. -/
structure RawRowCHD where
  date : Cell
  agentmis : Cell
  score : Cell
  sloved : Cell
deriving DecidableEq, Repr

/-- Raw CHE (evaluation) row: `date`, `agentmis`, `final`, `rc1`, `rc2`, `rc`, `bc`, `cc`. -/
structure RawRowCHE where
  date : Cell
  agentmis : Cell
  final : Cell
  rc1 : Cell
  rc2 : Cell
  rc : Cell
  bc : Cell
  cc : Cell
deriving DecidableEq, Repr

/-- The input workbook: its sheet names and the rows of each of the four
data sheets (a sheet absent from `sheetNames` is never read, because
validation fails first). -/
structure Workbook where
  sheetNames : List String
  cho : List RawRowCHO
  cht : List RawRowCHT
  chd : List RawRowCHD
  che : List RawRowCHE
deriving Repr

/-- Standardized CHO row: parsed date, text agentmis. -/
structure RowCHO where
  date : Nat
  agentmis : String
  status : Cell
deriving DecidableEq, Repr

/-- Standardized CHT row. -/
structure RowCHT where
  date : Nat
  agentmis : String
  ans_vol : Cell
  aht : Cell
  art : Cell
deriving DecidableEq, Repr

/-- Standardized CHD row. -/
structure RowCHD where
  date : Nat
  agentmis : String
  score : Cell
  sloved : Cell
deriving DecidableEq, Repr

/-- Standardized CHE row. -/
structure RowCHE where
  date : Nat
  agentmis : String
  final : Cell
  rc1 : Cell
  rc2 : Cell
  rc : Cell
  bc : Cell
  cc : Cell
deriving DecidableEq, Repr

/-- Fallible elementwise map (how a per-row failure aborts a whole
column operation such as `pd.to_datetime`). -/
def exMap {α β : Type} (f : α → Except String β) : List α → Except String (List β)
  | [] => Except.ok []
  | x :: xs =>
    match f x with
    | Except.error e => Except.error e
    | Except.ok y =>
      match exMap f xs with
      | Except.error e => Except.error e
      | Except.ok ys => Except.ok (y :: ys)

/-- `Pipeline.standardize` on one CHO row: parse `date`, stringify `agentmis`. -/
def stdRowCHO (r : RawRowCHO) : Except String RowCHO :=
  match toDatetime r.date with
  | Except.error e => Except.error e
  | Except.ok d => Except.ok { date := d, agentmis := pyStr r.agentmis, status := r.status }

/-- `Pipeline.standardize` on one CHT row. -/
def stdRowCHT (r : RawRowCHT) : Except String RowCHT :=
  match toDatetime r.date with
  | Except.error e => Except.error e
  | Except.ok d =>
      Except.ok { date := d, agentmis := pyStr r.agentmis,
                  ans_vol := r.ans_vol, aht := r.aht, art := r.art }

/-- `Pipeline.standardize` on one CHD row. -/
def stdRowCHD (r : RawRowCHD) : Except String RowCHD :=
  match toDatetime r.date with
  | Except.error e => Except.error e
  | Except.ok d =>
      Except.ok { date := d, agentmis := pyStr r.agentmis,
                  score := r.score, sloved := r.sloved }

/-- `Pipeline.standardize` on one CHE row. -/
def stdRowCHE (r : RawRowCHE) : Except String RowCHE :=
  match toDatetime r.date with
  | Except.error e => Except.error e
  | Except.ok d =>
      Except.ok { date := d, agentmis := pyStr r.agentmis, final := r.final,
                  rc1 := r.rc1, rc2 := r.rc2, rc := r.rc, bc := r.bc, cc := r.cc }

/-- `Pipeline.standardize` applied to the CHO sheet. -/
def standardizeCHO (rows : List RawRowCHO) : Except String (List RowCHO) :=
  exMap stdRowCHO rows

/-- `Pipeline.standardize` applied to the CHT sheet. -/
def standardizeCHT (rows : List RawRowCHT) : Except String (List RowCHT) :=
  exMap stdRowCHT rows

/-- `Pipeline.standardize` applied to the CHD sheet. -/
def standardizeCHD (rows : List RawRowCHD) : Except String (List RowCHD) :=
  exMap stdRowCHD rows

/-- `Pipeline.standardize` applied to the CHE sheet. -/
def standardizeCHE (rows : List RawRowCHE) : Except String (List RowCHE) :=
  exMap stdRowCHE rows

/-- The four required sheet names of `Pipeline.validate_sheets`. -/
def requiredSheets : List String := ["CHO", "CHT", "CHD", "CHE"]

/-- The missing-sheet list: required sheets absent from the workbook,
in required order (`[s for s in required_sheets if s not in available_sheets]`). -/
def missingSheets (wb : Workbook) : List String :=
  requiredSheets.filter (fun s => ¬ s ∈ wb.sheetNames)

/-- `Pipeline.validate_sheets`: raises a `ValueError` listing every
missing sheet when any required sheet is absent. -/
def validateSheets (wb : Workbook) : Except String Unit :=
  match missingSheets wb with
  | [] => Except.ok ()
  | m => Except.error (("Missing required sheets: ") ++ String.intercalate (", ") m)

/-- The distinct group keys of a sheet, first occurrence first
(`df.groupby(['date','agentmis'])`; pandas additionally sorts the keys,
which no property here depends on). -/
def groupKeys {ρ : Type} (key : ρ → Key) (rows : List ρ) : List Key :=
  dropDuplicates (rows.map key)

/-- The rows of one group. -/
def groupOf {ρ : Type} (key : ρ → Key) (rows : List ρ) (k : Key) : List ρ :=
  rows.filter (fun r => key r = k)

/-- Key of a standardized CHO row. -/
def keyCHO (r : RowCHO) : Key := (r.date, r.agentmis)

/-- Key of a standardized CHT row. -/
def keyCHT (r : RowCHT) : Key := (r.date, r.agentmis)

/-- Key of a standardized CHD row. -/
def keyCHD (r : RowCHD) : Key := (r.date, r.agentmis)

/-- Key of a standardized CHE row. -/
def keyCHE (r : RowCHE) : Key := (r.date, r.agentmis)

/-- `pd.Series.sum()` over a numeric column: numbers are added, missing
values are skipped, the empty sum is 0. -/
def pdSum : List Cell → Int
  | [] => 0
  | Cell.num n :: cs => n + pdSum cs
  | _ :: cs => pdSum cs

/-- One aggregated attendance row (`Pipeline.aggregate_cho`). -/
structure AggCHO where
  date : Nat
  agentmis : String
  absent : Nat
  scheduled : Nat
deriving DecidableEq, Repr

/-- One aggregated call-handling row (`Pipeline.aggregate_cht`). -/
structure AggCHT where
  date : Nat
  agentmis : String
  ans_vol : Int
  aht_min : Int
  art_min : Int
deriving DecidableEq, Repr

/-- One aggregated satisfaction row (`Pipeline.aggregate_chd`). -/
structure AggCHD where
  date : Nat
  agentmis : String
  surveyed_count : Nat
  solved_count : Nat
  not_solved_count : Nat
  csat_count : Nat
  dsat_count : Nat
deriving DecidableEq, Repr

/-- One aggregated evaluation row (`Pipeline.aggregate_che`). -/
structure AggCHE where
  date : Nat
  agentmis : String
  evaluated_count : Nat
  pass_eval_count : Nat
  fail_eval_count : Nat
  rc1_fail : Nat
  rc2_fail : Nat
  rc_fail : Nat
  bc_fail : Nat
  cc_fail : Nat
deriving DecidableEq, Repr

/-- `Pipeline.count_fail`: `(series.astype(str).str.lower() == 'fail').sum()`. -/
def count_fail (cells : List Cell) : Nat :=
  (cells.filter (fun c => pyLower (pyStr c) = "fail")).length

/-- `Pipeline.aggregate_cho`: group CHO by (date, agentmis);
`absent` counts status values whose lower-cased text form is the no-show
marker, `scheduled` counts status values whose lower-cased text form is
not in `['off']` (`(~x.astype(str).str.lower().isin(['off'])).sum()`). -/
def aggregateCho (rows : List RowCHO) : List AggCHO :=
  (groupKeys keyCHO rows).map (fun k =>
    let g := groupOf keyCHO rows k
    { date := k.1, agentmis := k.2,
      absent := (g.filter (fun r => pyLower (pyStr r.status) = "no show")).length,
      scheduled := (g.filter (fun r => ¬ pyLower (pyStr r.status) ∈ (["off"] : List String))).length })

/-- `Pipeline.aggregate_cht`: group CHT by (date, agentmis) and sum the
`ans_vol`, `aht`, `art` columns. -/
def aggregateCht (rows : List RowCHT) : List AggCHT :=
  (groupKeys keyCHT rows).map (fun k =>
    let g := groupOf keyCHT rows k
    { date := k.1, agentmis := k.2,
      ans_vol := pdSum (g.map (fun r => r.ans_vol)),
      aht_min := pdSum (g.map (fun r => r.aht)),
      art_min := pdSum (g.map (fun r => r.art)) })

/-- The `csat` helper of `Pipeline.aggregate_chd`: when the score
column's dtype is numeric, `x[x.isin([4,5])].count()`; otherwise 0 for
the whole group. -/
def csat (dtypeNumeric : Bool) (g : List Cell) : Nat :=
  if dtypeNumeric then (g.filter (fun c => c = Cell.num 4 ∨ c = Cell.num 5)).length else 0

/-- The `dsat` helper of `Pipeline.aggregate_chd`: when the score
column's dtype is numeric, `x[x == 1].count()`; otherwise 0. -/
def dsat (dtypeNumeric : Bool) (g : List Cell) : Nat :=
  if dtypeNumeric then (g.filter (fun c => c = Cell.num 1)).length else 0

/-- Whether the CHD score column has a numeric dtype: pandas infers a
numeric dtype exactly when every cell of the column is a number or
missing. -/
def scoreDtypeNumeric (rows : List RowCHD) : Bool :=
  rows.all (fun r => isNumericCell r.score)

/-- `Pipeline.aggregate_chd`: group CHD by (date, agentmis);
`surveyed_count` counts non-null scores, `solved_count` counts rows
whose `sloved` text form lower-cases to the affirmative marker,
`not_solved_count` counts all other rows, and `csat_count`/`dsat_count`
apply the dtype-gated helpers to the group's scores. -/
def aggregateChd (rows : List RowCHD) : List AggCHD :=
  let sn := scoreDtypeNumeric rows
  (groupKeys keyCHD rows).map (fun k =>
    let g := groupOf keyCHD rows k
    { date := k.1, agentmis := k.2,
      surveyed_count := (g.filter (fun r => cellNonNull r.score)).length,
      solved_count := (g.filter (fun r => pyLower (pyStr r.sloved) = "yes")).length,
      not_solved_count := (g.filter (fun r => ¬ pyLower (pyStr r.sloved) = "yes")).length,
      csat_count := csat sn (g.map (fun r => r.score)),
      dsat_count := dsat sn (g.map (fun r => r.score)) })

/-- `Pipeline.aggregate_che`: group CHE by (date, agentmis);
`evaluated_count` counts non-null finals, `pass_eval_count` and
`fail_eval_count` compare the lower-cased text form of `final`, and the
five compliance columns are counted by `count_fail`. -/
def aggregateChe (rows : List RowCHE) : List AggCHE :=
  (groupKeys keyCHE rows).map (fun k =>
    let g := groupOf keyCHE rows k
    { date := k.1, agentmis := k.2,
      evaluated_count := (g.filter (fun r => cellNonNull r.final)).length,
      pass_eval_count := (g.filter (fun r => pyLower (pyStr r.final) = "pass")).length,
      fail_eval_count := (g.filter (fun r => pyLower (pyStr r.final) = "fail")).length,
      rc1_fail := count_fail (g.map (fun r => r.rc1)),
      rc2_fail := count_fail (g.map (fun r => r.rc2)),
      rc_fail := count_fail (g.map (fun r => r.rc)),
      bc_fail := count_fail (g.map (fun r => r.bc)),
      cc_fail := count_fail (g.map (fun r => r.cc)) })

/-- Concatenation of a row-valued map (how a left merge emits, for each
left row, its block of output rows). -/
def catMap {α γ : Type} (f : α → List γ) : List α → List γ
  | [] => []
  | b :: bs => f b ++ catMap f bs

/-- The block of output rows one left row produces in
`merge(..., on=['date','agentmis'], how='left')`: one row per matching
right row, or a single null-filled row when nothing matches. -/
def leftMergeRow {α β γ : Type} (keyL : α → Key) (keyR : β → Key)
    (comb : α → β → γ) (miss : α → γ) (agg : List β) (b : α) : List γ :=
  if (agg.filter (fun a => keyR a = keyL b)).isEmpty then [miss b]
  else (agg.filter (fun a => keyR a = keyL b)).map (comb b)

/-- pandas left merge on (date, agentmis). -/
def leftMerge {α β γ : Type} (keyL : α → Key) (keyR : β → Key)
    (comb : α → β → γ) (miss : α → γ) (base : List α) (agg : List β) : List γ :=
  catMap (leftMergeRow keyL keyR comb miss agg) base

/-- Base row after the CHO merge: attendance metrics may be missing. -/
structure Row1 where
  date : Nat
  agentmis : String
  absent : Option Nat
  scheduled : Option Nat
deriving DecidableEq, Repr

/-- Row after the CHT merge. -/
structure Row2 where
  date : Nat
  agentmis : String
  absent : Option Nat
  scheduled : Option Nat
  ans_vol : Option Int
  aht_min : Option Int
  art_min : Option Int
deriving DecidableEq, Repr

/-- Row after the CHD merge. -/
structure Row3 where
  date : Nat
  agentmis : String
  absent : Option Nat
  scheduled : Option Nat
  ans_vol : Option Int
  aht_min : Option Int
  art_min : Option Int
  surveyed_count : Option Nat
  solved_count : Option Nat
  not_solved_count : Option Nat
  csat_count : Option Nat
  dsat_count : Option Nat
deriving DecidableEq, Repr

/-- Row after the CHE merge (all metrics still optional). -/
structure Row4 where
  date : Nat
  agentmis : String
  absent : Option Nat
  scheduled : Option Nat
  ans_vol : Option Int
  aht_min : Option Int
  art_min : Option Int
  surveyed_count : Option Nat
  solved_count : Option Nat
  not_solved_count : Option Nat
  csat_count : Option Nat
  dsat_count : Option Nat
  evaluated_count : Option Nat
  pass_eval_count : Option Nat
  fail_eval_count : Option Nat
  rc1_fail : Option Nat
  rc2_fail : Option Nat
  rc_fail : Option Nat
  bc_fail : Option Nat
  cc_fail : Option Nat
deriving DecidableEq, Repr

/-- A row of the final KPI table, after `fillna(0)` on the metric columns. -/
structure KpiRow where
  date : Nat
  agentmis : String
  absent : Nat
  scheduled : Nat
  ans_vol : Int
  aht_min : Int
  art_min : Int
  surveyed_count : Nat
  solved_count : Nat
  not_solved_count : Nat
  csat_count : Nat
  dsat_count : Nat
  evaluated_count : Nat
  pass_eval_count : Nat
  fail_eval_count : Nat
  rc1_fail : Nat
  rc2_fail : Nat
  rc_fail : Nat
  bc_fail : Nat
  cc_fail : Nat
deriving DecidableEq, Repr

/-- Key of an aggregated CHO row. -/
def keyAggCHO (a : AggCHO) : Key := (a.date, a.agentmis)

/-- Key of an aggregated CHT row. -/
def keyAggCHT (a : AggCHT) : Key := (a.date, a.agentmis)

/-- Key of an aggregated CHD row. -/
def keyAggCHD (a : AggCHD) : Key := (a.date, a.agentmis)

/-- Key of an aggregated CHE row. -/
def keyAggCHE (a : AggCHE) : Key := (a.date, a.agentmis)

/-- Key of a Row1. -/
def keyRow1 (r : Row1) : Key := (r.date, r.agentmis)

/-- Key of a Row2. -/
def keyRow2 (r : Row2) : Key := (r.date, r.agentmis)

/-- Key of a Row3. -/
def keyRow3 (r : Row3) : Key := (r.date, r.agentmis)

/-- Key of a Row4. -/
def keyRow4 (r : Row4) : Key := (r.date, r.agentmis)

/-- Key of a final KPI row. -/
def keyKpi (r : KpiRow) : Key := (r.date, r.agentmis)

/-- `Pipeline.build_base`: concatenate the (date, agentmis) pairs of the
four standardized sheets in fixed order and drop duplicates. -/
def buildBase (cho : List RowCHO) (cht : List RowCHT)
    (chd : List RowCHD) (che : List RowCHE) : List Key :=
  dropDuplicates (cho.map keyCHO ++ cht.map keyCHT ++ chd.map keyCHD ++ che.map keyCHE)

/-- The merge step of `Pipeline.aggregate_cho`. -/
def mergeCho (base : List Key) (agg : List AggCHO) : List Row1 :=
  leftMerge id keyAggCHO
    (fun k a => { date := k.1, agentmis := k.2,
                  absent := some a.absent, scheduled := some a.scheduled })
    (fun k => { date := k.1, agentmis := k.2, absent := none, scheduled := none })
    base agg

/-- The merge step of `Pipeline.aggregate_cht`. -/
def mergeCht (base : List Row1) (agg : List AggCHT) : List Row2 :=
  leftMerge keyRow1 keyAggCHT
    (fun r a => { date := r.date, agentmis := r.agentmis,
                  absent := r.absent, scheduled := r.scheduled,
                  ans_vol := some a.ans_vol, aht_min := some a.aht_min,
                  art_min := some a.art_min })
    (fun r => { date := r.date, agentmis := r.agentmis,
                absent := r.absent, scheduled := r.scheduled,
                ans_vol := none, aht_min := none, art_min := none })
    base agg

/-- The merge step of `Pipeline.aggregate_chd`. -/
def mergeChd (base : List Row2) (agg : List AggCHD) : List Row3 :=
  leftMerge keyRow2 keyAggCHD
    (fun r a => { date := r.date, agentmis := r.agentmis,
                  absent := r.absent, scheduled := r.scheduled,
                  ans_vol := r.ans_vol, aht_min := r.aht_min, art_min := r.art_min,
                  surveyed_count := some a.surveyed_count,
                  solved_count := some a.solved_count,
                  not_solved_count := some a.not_solved_count,
                  csat_count := some a.csat_count, dsat_count := some a.dsat_count })
    (fun r => { date := r.date, agentmis := r.agentmis,
                absent := r.absent, scheduled := r.scheduled,
                ans_vol := r.ans_vol, aht_min := r.aht_min, art_min := r.art_min,
                surveyed_count := none, solved_count := none,
                not_solved_count := none, csat_count := none, dsat_count := none })
    base agg

/-- The merge step of `Pipeline.aggregate_che`. -/
def mergeChe (base : List Row3) (agg : List AggCHE) : List Row4 :=
  leftMerge keyRow3 keyAggCHE
    (fun r a => { date := r.date, agentmis := r.agentmis,
                  absent := r.absent, scheduled := r.scheduled,
                  ans_vol := r.ans_vol, aht_min := r.aht_min, art_min := r.art_min,
                  surveyed_count := r.surveyed_count, solved_count := r.solved_count,
                  not_solved_count := r.not_solved_count,
                  csat_count := r.csat_count, dsat_count := r.dsat_count,
                  evaluated_count := some a.evaluated_count,
                  pass_eval_count := some a.pass_eval_count,
                  fail_eval_count := some a.fail_eval_count,
                  rc1_fail := some a.rc1_fail, rc2_fail := some a.rc2_fail,
                  rc_fail := some a.rc_fail, bc_fail := some a.bc_fail,
                  cc_fail := some a.cc_fail })
    (fun r => { date := r.date, agentmis := r.agentmis,
                absent := r.absent, scheduled := r.scheduled,
                ans_vol := r.ans_vol, aht_min := r.aht_min, art_min := r.art_min,
                surveyed_count := r.surveyed_count, solved_count := r.solved_count,
                not_solved_count := r.not_solved_count,
                csat_count := r.csat_count, dsat_count := r.dsat_count,
                evaluated_count := none, pass_eval_count := none,
                fail_eval_count := none, rc1_fail := none, rc2_fail := none,
                rc_fail := none, bc_fail := none, cc_fail := none })
    base agg

/-- `fillna(0)` on the metric columns of one row (`date` and `agentmis`
are not metric columns and are untouched). -/
def fillnaRow (r : Row4) : KpiRow :=
  { date := r.date, agentmis := r.agentmis,
    absent := r.absent.getD 0, scheduled := r.scheduled.getD 0,
    ans_vol := r.ans_vol.getD 0, aht_min := r.aht_min.getD 0,
    art_min := r.art_min.getD 0,
    surveyed_count := r.surveyed_count.getD 0,
    solved_count := r.solved_count.getD 0,
    not_solved_count := r.not_solved_count.getD 0,
    csat_count := r.csat_count.getD 0, dsat_count := r.dsat_count.getD 0,
    evaluated_count := r.evaluated_count.getD 0,
    pass_eval_count := r.pass_eval_count.getD 0,
    fail_eval_count := r.fail_eval_count.getD 0,
    rc1_fail := r.rc1_fail.getD 0, rc2_fail := r.rc2_fail.getD 0,
    rc_fail := r.rc_fail.getD 0, bc_fail := r.bc_fail.getD 0,
    cc_fail := r.cc_fail.getD 0 }

/-- `self.base[metric_cols] = self.base[metric_cols].fillna(0)`. -/
def fillna (t : List Row4) : List KpiRow := t.map fillnaRow

/-- The statistics record the pipeline accumulates on `self.stats`. -/
structure Stats where
  cho_rows : Nat
  cht_rows : Nat
  chd_rows : Nat
  che_rows : Nat
  unique_agents : Nat
  date_range : String
  total_records : Nat
deriving DecidableEq, Repr

/-- The date-range statistic of `Pipeline.build_base`:
`base['date'].min().strftime(...) + " to " + base['date'].max().strftime(...)`.
On an empty base the min and max are NaT, and `strftime` on NaT raises. -/
def dateRangeStr (dates : List Nat) : Except String String :=
  match dates.min?, dates.max? with
  | some lo, some hi => Except.ok (fmtDate lo ++ (" to ") ++ fmtDate hi)
  | _, _ => Except.error ("NaTType does not support strftime")

/-- The merge-and-fill tail of `Pipeline.build_db`: left-join the four
per-sheet aggregates onto the base in fixed order, then zero-fill the
metric columns. -/
def pipelineTable (cho : List RowCHO) (cht : List RowCHT)
    (chd : List RowCHD) (che : List RowCHE) : List KpiRow :=
  fillna (mergeChe (mergeChd (mergeCht (mergeCho (buildBase cho cht chd che)
    (aggregateCho cho)) (aggregateCht cht)) (aggregateChd chd)) (aggregateChe che))

/-- The statistics dictionary accumulated by `load_sheets` and
`build_base`. -/
def pipelineStats (cho : List RowCHO) (cht : List RowCHT)
    (chd : List RowCHD) (che : List RowCHE) (dr : String) : Stats :=
  { cho_rows := cho.length, cht_rows := cht.length,
    chd_rows := chd.length, che_rows := che.length,
    unique_agents := (dropDuplicates ((buildBase cho cht chd che).map Prod.snd)).length,
    date_range := dr, total_records := (buildBase cho cht chd che).length }

/-- `Pipeline.build_db` run against a workbook: validate the sheet
names, standardize the four sheets (recording their row counts), build
the deduplicated base and its statistics, left-join the four per-sheet
aggregates in fixed order, and zero-fill the metric columns.  Returns
the final KPI table together with the accumulated statistics; any
`raise` on the way out is an error and no table is returned. -/
def buildDb (wb : Workbook) : Except String (List KpiRow × Stats) :=
  match validateSheets wb with
  | Except.error e => Except.error e
  | Except.ok _ =>
  match standardizeCHO wb.cho with
  | Except.error e => Except.error e
  | Except.ok cho =>
  match standardizeCHT wb.cht with
  | Except.error e => Except.error e
  | Except.ok cht =>
  match standardizeCHD wb.chd with
  | Except.error e => Except.error e
  | Except.ok chd =>
  match standardizeCHE wb.che with
  | Except.error e => Except.error e
  | Except.ok che =>
  match dateRangeStr ((buildBase cho cht chd che).map Prod.fst) with
  | Except.error e => Except.error e
  | Except.ok dr =>
  Except.ok (pipelineTable cho cht chd che, pipelineStats cho cht chd che dr)

/-! ### Library lemmas about the embedding's building blocks -/

theorem mem_dropDupAux {α : Type} [DecidableEq α] (l : List α) :
    ∀ (seen : List α) (a : α), a ∈ dropDupAux seen l ↔ (a ∈ l ∧ ¬ a ∈ seen) := by
  induction l with
  | nil => intro seen a; simp [dropDupAux]
  | cons x xs ih =>
    intro seen a
    simp only [dropDupAux]
    by_cases hx : x ∈ seen
    · rw [if_pos hx, ih]
      constructor
      · rintro ⟨ha, hs⟩
        exact ⟨List.mem_cons_of_mem x ha, hs⟩
      · rintro ⟨ha, hs⟩
        rcases List.mem_cons.mp ha with rfl | h2
        · exact absurd hx hs
        · exact ⟨h2, hs⟩
    · rw [if_neg hx]
      simp only [List.mem_cons, ih]
      constructor
      · rintro (rfl | ⟨ha, hs⟩)
        · exact ⟨Or.inl rfl, hx⟩
        · exact ⟨Or.inr ha, fun h => hs (Or.inr h)⟩
      · rintro ⟨ha, hs⟩
        by_cases hax : a = x
        · exact Or.inl hax
        · rcases ha with rfl | ha2
          · exact Or.inl rfl
          · exact Or.inr ⟨ha2, fun h => h.elim hax hs⟩

theorem mem_dropDuplicates {α : Type} [DecidableEq α] (l : List α) (a : α) :
    a ∈ dropDuplicates l ↔ a ∈ l := by
  unfold dropDuplicates
  rw [mem_dropDupAux]
  simp

theorem nodup_dropDupAux {α : Type} [DecidableEq α] (l : List α) :
    ∀ seen : List α, (dropDupAux seen l).Nodup := by
  induction l with
  | nil => intro seen; simp [dropDupAux]
  | cons x xs ih =>
    intro seen
    simp only [dropDupAux]
    by_cases hx : x ∈ seen
    · rw [if_pos hx]; exact ih seen
    · rw [if_neg hx]
      refine List.nodup_cons.mpr ⟨fun hmem => ?_, ih (x :: seen)⟩
      have h2 := (mem_dropDupAux xs (x :: seen) x).mp hmem
      exact h2.2 (List.mem_cons_self x seen)

theorem nodup_dropDuplicates {α : Type} [DecidableEq α] (l : List α) :
    (dropDuplicates l).Nodup :=
  nodup_dropDupAux l []

theorem toFinset_dropDuplicates {α : Type} [DecidableEq α] (l : List α) :
    (dropDuplicates l).toFinset = l.toFinset := by
  ext a
  simp [List.mem_toFinset, mem_dropDuplicates]

theorem length_dropDuplicates {α : Type} [DecidableEq α] (l : List α) :
    (dropDuplicates l).length = l.toFinset.card := by
  rw [← toFinset_dropDuplicates, List.toFinset_card_of_nodup (nodup_dropDuplicates l)]

theorem exMap_ok_length {α β : Type} (f : α → Except String β) (l : List α)
    (out : List β) (h : exMap f l = Except.ok out) : out.length = l.length := by
  induction l generalizing out with
  | nil => simp only [exMap] at h; cases h; rfl
  | cons x xs ih =>
    simp only [exMap] at h
    cases hfx : f x with
    | error e => rw [hfx] at h; cases h
    | ok y =>
      rw [hfx] at h
      cases hxs : exMap f xs with
      | error e => rw [hxs] at h; cases h
      | ok ys =>
        rw [hxs] at h
        cases h
        simp [ih ys hxs]

theorem exMap_ok_mem_out {α β : Type} (f : α → Except String β) (l : List α)
    (out : List β) (h : exMap f l = Except.ok out) :
    ∀ y ∈ out, ∃ x ∈ l, f x = Except.ok y := by
  induction l generalizing out with
  | nil => simp only [exMap] at h; cases h; intro y hy; cases hy
  | cons x xs ih =>
    simp only [exMap] at h
    cases hfx : f x with
    | error e => rw [hfx] at h; cases h
    | ok y0 =>
      rw [hfx] at h
      cases hxs : exMap f xs with
      | error e => rw [hxs] at h; cases h
      | ok ys =>
        rw [hxs] at h
        cases h
        intro y hy
        rcases List.mem_cons.mp hy with rfl | hmem
        · exact ⟨x, List.mem_cons_self x xs, hfx⟩
        · obtain ⟨x2, hx2, hfx2⟩ := ih ys hxs y hmem
          exact ⟨x2, List.mem_cons_of_mem x hx2, hfx2⟩

theorem exMap_ok_mem_in {α β : Type} (f : α → Except String β) (l : List α)
    (out : List β) (h : exMap f l = Except.ok out) :
    ∀ x ∈ l, ∃ y ∈ out, f x = Except.ok y := by
  induction l generalizing out with
  | nil => intro x hx; cases hx
  | cons x xs ih =>
    simp only [exMap] at h
    cases hfx : f x with
    | error e => rw [hfx] at h; cases h
    | ok y0 =>
      rw [hfx] at h
      cases hxs : exMap f xs with
      | error e => rw [hxs] at h; cases h
      | ok ys =>
        rw [hxs] at h
        cases h
        intro x2 hx2
        rcases List.mem_cons.mp hx2 with rfl | hmem
        · exact ⟨y0, List.mem_cons_self y0 ys, hfx⟩
        · obtain ⟨y, hy, hfy⟩ := ih ys hxs x2 hmem
          exact ⟨y, List.mem_cons_of_mem y0 hy, hfy⟩

theorem exMap_error_of_mem {α β : Type} (f : α → Except String β) (l : List α)
    (x : α) (e : String) (hx : x ∈ l) (hfx : f x = Except.error e) :
    ∃ e2, exMap f l = Except.error e2 := by
  induction l with
  | nil => cases hx
  | cons z zs ih =>
    rcases List.mem_cons.mp hx with rfl | hmem
    · exact ⟨e, by simp [exMap, hfx]⟩
    · cases hfz : f z with
      | error e0 => exact ⟨e0, by simp [exMap, hfz]⟩
      | ok y =>
        obtain ⟨e2, h2⟩ := ih hmem
        exact ⟨e2, by simp [exMap, hfz, h2]⟩

theorem mem_catMap {α γ : Type} (f : α → List γ) (l : List α) (c : γ) :
    c ∈ catMap f l ↔ ∃ b ∈ l, c ∈ f b := by
  induction l with
  | nil => simp [catMap]
  | cons b bs ih =>
    simp only [catMap, List.mem_append, ih, List.mem_cons]
    constructor
    · rintro (h | ⟨b2, hb2, hc⟩)
      · exact ⟨b, Or.inl rfl, h⟩
      · exact ⟨b2, Or.inr hb2, hc⟩
    · rintro ⟨b2, rfl | hb2, hc⟩
      · exact Or.inl hc
      · exact Or.inr ⟨b2, hb2, hc⟩

theorem catMap_singleton {α γ : Type} (f : α → List γ) (g : α → γ) (l : List α)
    (h : ∀ b ∈ l, f b = [g b]) : catMap f l = l.map g := by
  induction l with
  | nil => rfl
  | cons b bs ih =>
    simp only [catMap, List.map_cons, h b (List.mem_cons_self b bs)]
    rw [ih (fun b2 hb2 => h b2 (List.mem_cons_of_mem b hb2))]
    rfl

theorem length_filter_key_le_one {β : Type} (keyR : β → Key) (agg : List β)
    (hnd : (agg.map keyR).Nodup) (k : Key) :
    (agg.filter (fun a => keyR a = k)).length ≤ 1 := by
  induction agg with
  | nil => simp
  | cons a as ih =>
    simp only [List.map_cons, List.nodup_cons] at hnd
    by_cases hk : keyR a = k
    · have : as.filter (fun a2 => keyR a2 = k) = [] := by
        rw [List.filter_eq_nil_iff]
        intro a2 ha2
        simp only [decide_eq_true_eq]
        intro he
        have hmm : keyR a ∈ as.map keyR := by
          rw [hk, ← he]
          exact List.mem_map_of_mem keyR ha2
        exact hnd.1 hmm
      simp [List.filter_cons, hk, this]
    · simpa [List.filter_cons, hk] using ih hnd.2

theorem catMap_map_of_singleton {α γ κ : Type} (f : α → List γ) (g : γ → κ)
    (h : α → κ) (l : List α) (hf : ∀ b ∈ l, ∃ c, f b = [c] ∧ g c = h b) :
    (catMap f l).map g = l.map h := by
  induction l with
  | nil => rfl
  | cons b bs ih =>
    obtain ⟨c, hfb, hgc⟩ := hf b (List.mem_cons_self b bs)
    simp only [catMap, List.map_append, List.map_cons, hfb, hgc,
      ih (fun b2 hb2 => hf b2 (List.mem_cons_of_mem b hb2))]
    rfl

theorem leftMergeRow_singleton {α β γ : Type} (keyL : α → Key) (keyR : β → Key)
    (comb : α → β → γ) (miss : α → γ) (keyC : γ → Key) (agg : List β) (b : α)
    (hnd : (agg.map keyR).Nodup)
    (hk1 : ∀ a, keyC (comb b a) = keyL b) (hk2 : keyC (miss b) = keyL b) :
    ∃ c, leftMergeRow keyL keyR comb miss agg b = [c] ∧ keyC c = keyL b := by
  by_cases hf : agg.filter (fun a => keyR a = keyL b) = []
  · refine ⟨miss b, ?_, hk2⟩
    simp [leftMergeRow, hf]
  · obtain ⟨m, ms, hms⟩ := List.exists_cons_of_ne_nil hf
    have hle := length_filter_key_le_one keyR agg hnd (keyL b)
    rw [hms] at hle
    have hms0 : ms = [] := by
      cases ms with
      | nil => rfl
      | cons y ys => simp at hle
    subst hms0
    refine ⟨comb b m, ?_, hk1 m⟩
    simp [leftMergeRow, hms]

theorem leftMerge_map_key {α β γ : Type} (keyL : α → Key) (keyR : β → Key)
    (comb : α → β → γ) (miss : α → γ) (keyC : γ → Key) (base : List α)
    (agg : List β) (hnd : (agg.map keyR).Nodup)
    (hk1 : ∀ b a, keyC (comb b a) = keyL b) (hk2 : ∀ b, keyC (miss b) = keyL b) :
    (leftMerge keyL keyR comb miss base agg).map keyC = base.map keyL := by
  refine catMap_map_of_singleton _ _ _ _ (fun b _ => ?_)
  obtain ⟨c, hc, hkc⟩ :=
    leftMergeRow_singleton keyL keyR comb miss keyC agg b hnd (hk1 b) (hk2 b)
  exact ⟨c, hc, hkc⟩

theorem leftMerge_length {α β γ : Type} (keyL : α → Key) (keyR : β → Key)
    (comb : α → β → γ) (miss : α → γ) (keyC : γ → Key) (base : List α)
    (agg : List β) (hnd : (agg.map keyR).Nodup)
    (hk1 : ∀ b a, keyC (comb b a) = keyL b) (hk2 : ∀ b, keyC (miss b) = keyL b) :
    (leftMerge keyL keyR comb miss base agg).length = base.length := by
  have h := leftMerge_map_key keyL keyR comb miss keyC base agg hnd hk1 hk2
  have h2 := congrArg List.length h
  simpa using h2

theorem leftMerge_mem_cases {α β γ : Type} (keyL : α → Key) (keyR : β → Key)
    (comb : α → β → γ) (miss : α → γ) (base : List α) (agg : List β) (c : γ)
    (hc : c ∈ leftMerge keyL keyR comb miss base agg) :
    ∃ b ∈ base, (c = miss b ∧ ∀ a ∈ agg, ¬ keyR a = keyL b) ∨
      ∃ a ∈ agg, keyR a = keyL b ∧ c = comb b a := by
  obtain ⟨b, hb, hcb⟩ := (mem_catMap _ _ _).mp hc
  refine ⟨b, hb, ?_⟩
  by_cases hf : agg.filter (fun a => keyR a = keyL b) = []
  · simp only [leftMergeRow, hf, List.isEmpty_nil, if_true, List.mem_singleton] at hcb
    left
    refine ⟨hcb, fun a ha hk => ?_⟩
    have h2 := List.filter_eq_nil_iff.mp hf a ha
    simp [hk] at h2
  · simp only [leftMergeRow] at hcb
    rw [if_neg (by simp [List.isEmpty_iff, hf])] at hcb
    right
    obtain ⟨a, ha, hca⟩ := List.mem_map.mp hcb
    have ha2 := List.mem_filter.mp ha
    exact ⟨a, ha2.1, by simpa using ha2.2, hca.symm⟩

theorem mem_groupKeys {ρ : Type} (key : ρ → Key) (rows : List ρ) (k : Key) :
    k ∈ groupKeys key rows ↔ k ∈ rows.map key := by
  unfold groupKeys
  exact mem_dropDuplicates _ _

theorem nodup_groupKeys {ρ : Type} (key : ρ → Key) (rows : List ρ) :
    (groupKeys key rows).Nodup :=
  nodup_dropDuplicates _

theorem map_key_aggregateCho (rows : List RowCHO) :
    (aggregateCho rows).map keyAggCHO = groupKeys keyCHO rows := by
  unfold aggregateCho
  rw [List.map_map]
  exact List.map_id _

theorem map_key_aggregateCht (rows : List RowCHT) :
    (aggregateCht rows).map keyAggCHT = groupKeys keyCHT rows := by
  unfold aggregateCht
  rw [List.map_map]
  exact List.map_id _

theorem map_key_aggregateChd (rows : List RowCHD) :
    (aggregateChd rows).map keyAggCHD = groupKeys keyCHD rows := by
  unfold aggregateChd
  rw [List.map_map]
  exact List.map_id _

theorem map_key_aggregateChe (rows : List RowCHE) :
    (aggregateChe rows).map keyAggCHE = groupKeys keyCHE rows := by
  unfold aggregateChe
  rw [List.map_map]
  exact List.map_id _

theorem nodup_keys_aggregateCho (rows : List RowCHO) :
    ((aggregateCho rows).map keyAggCHO).Nodup := by
  rw [map_key_aggregateCho]; exact nodup_groupKeys _ _

theorem nodup_keys_aggregateCht (rows : List RowCHT) :
    ((aggregateCht rows).map keyAggCHT).Nodup := by
  rw [map_key_aggregateCht]; exact nodup_groupKeys _ _

theorem nodup_keys_aggregateChd (rows : List RowCHD) :
    ((aggregateChd rows).map keyAggCHD).Nodup := by
  rw [map_key_aggregateChd]; exact nodup_groupKeys _ _

theorem nodup_keys_aggregateChe (rows : List RowCHE) :
    ((aggregateChe rows).map keyAggCHE).Nodup := by
  rw [map_key_aggregateChe]; exact nodup_groupKeys _ _

theorem mergeCho_map_key (base : List Key) (agg : List AggCHO)
    (hnd : (agg.map keyAggCHO).Nodup) :
    (mergeCho base agg).map keyRow1 = base := by
  unfold mergeCho
  refine (leftMerge_map_key id keyAggCHO _ _ keyRow1 base agg hnd ?_ ?_).trans
    (List.map_id base)
  · intro b a; rfl
  · intro b; rfl

theorem mergeCht_map_key (base : List Row1) (agg : List AggCHT)
    (hnd : (agg.map keyAggCHT).Nodup) :
    (mergeCht base agg).map keyRow2 = base.map keyRow1 := by
  unfold mergeCht
  exact leftMerge_map_key keyRow1 keyAggCHT _ _ keyRow2 base agg hnd
    (fun _ _ => rfl) (fun _ => rfl)

theorem mergeChd_map_key (base : List Row2) (agg : List AggCHD)
    (hnd : (agg.map keyAggCHD).Nodup) :
    (mergeChd base agg).map keyRow3 = base.map keyRow2 := by
  unfold mergeChd
  exact leftMerge_map_key keyRow2 keyAggCHD _ _ keyRow3 base agg hnd
    (fun _ _ => rfl) (fun _ => rfl)

theorem mergeChe_map_key (base : List Row3) (agg : List AggCHE)
    (hnd : (agg.map keyAggCHE).Nodup) :
    (mergeChe base agg).map keyRow4 = base.map keyRow3 := by
  unfold mergeChe
  exact leftMerge_map_key keyRow3 keyAggCHE _ _ keyRow4 base agg hnd
    (fun _ _ => rfl) (fun _ => rfl)

theorem pipelineTable_map_key (cho : List RowCHO) (cht : List RowCHT)
    (chd : List RowCHD) (che : List RowCHE) :
    (pipelineTable cho cht chd che).map keyKpi = buildBase cho cht chd che := by
  unfold pipelineTable fillna
  rw [List.map_map]
  have hcomp : keyKpi ∘ fillnaRow = keyRow4 := rfl
  rw [hcomp, mergeChe_map_key _ _ (nodup_keys_aggregateChe che),
    mergeChd_map_key _ _ (nodup_keys_aggregateChd chd),
    mergeCht_map_key _ _ (nodup_keys_aggregateCht cht),
    mergeCho_map_key _ _ (nodup_keys_aggregateCho cho)]

theorem pipelineTable_length (cho : List RowCHO) (cht : List RowCHT)
    (chd : List RowCHD) (che : List RowCHE) :
    (pipelineTable cho cht chd che).length = (buildBase cho cht chd che).length := by
  have h := congrArg List.length (pipelineTable_map_key cho cht chd che)
  simpa using h

theorem buildDb_ok_elim (wb : Workbook) (t : List KpiRow) (st : Stats)
    (hb : buildDb wb = Except.ok (t, st)) :
    ∃ cho cht chd che dr,
      standardizeCHO wb.cho = Except.ok cho ∧
      standardizeCHT wb.cht = Except.ok cht ∧
      standardizeCHD wb.chd = Except.ok chd ∧
      standardizeCHE wb.che = Except.ok che ∧
      dateRangeStr ((buildBase cho cht chd che).map Prod.fst) = Except.ok dr ∧
      t = pipelineTable cho cht chd che ∧
      st = pipelineStats cho cht chd che dr := by
  unfold buildDb at hb
  split at hb
  · cases hb
  · split at hb
    · cases hb
    next cho hcho =>
    split at hb
    · cases hb
    next cht hcht =>
    split at hb
    · cases hb
    next chd hchd =>
    split at hb
    · cases hb
    next che hche =>
    split at hb
    · cases hb
    next dr hdr =>
    simp only [Except.ok.injEq, Prod.mk.injEq] at hb
    exact ⟨cho, cht, chd, che, dr, hcho, hcht, hchd, hche, hdr, hb.1.symm, hb.2.symm⟩

/-! ### Claim theorems -/

theorem validateSheets_error_of_missing (wb : Workbook) (hm : missingSheets wb ≠ []) :
    validateSheets wb = Except.error (("Missing required sheets: ") ++
      String.intercalate (", ") (missingSheets wb)) := by
  unfold validateSheets
  cases hms : missingSheets wb with
  | nil => exact absurd hms hm
  | cons s ss => rfl

/-- Claim C3: for every workbook missing at least one of the four
required sheets CHO, CHT, CHD, CHE, the pipeline fails with a
validation error whose message enumerates every missing sheet name (the
whole filtered list, not only the first), and this is the entire result
of `build_db` — no sheet is loaded and no aggregation happens, whatever
the sheets contain. -/
theorem claim_C3 (wb : Workbook) (hm : missingSheets wb ≠ []) :
    buildDb wb = Except.error (("Missing required sheets: ") ++
      String.intercalate (", ") (missingSheets wb)) := by
  unfold buildDb
  rw [validateSheets_error_of_missing wb hm]

/-- Workbook missing the CHT and CHD sheets. -/
def wbC3 : Workbook :=
  { sheetNames := [("CHO"), ("CHE")], cho := [], cht := [], chd := [], che := [] }

/-- Witness for C3: a workbook missing two sheets reports both names. -/
theorem claim_C3_witness :
    missingSheets wbC3 = [("CHT"), ("CHD")] ∧
    buildDb wbC3 = Except.error (("Missing required sheets: ") ++
      String.intercalate (", ") (missingSheets wbC3)) :=
  ⟨by decide, claim_C3 wbC3 (by decide)⟩

/-- Claim C10: a workbook with all four sheets present but zero data
rows makes `build_db` raise while computing the date-range statistic
(min/max of an empty date column is NaT and `strftime` on NaT raises)
instead of returning an empty KPI table. -/
theorem claim_C10 (wb : Workbook) (hm : missingSheets wb = [])
    (h1 : wb.cho = []) (h2 : wb.cht = []) (h3 : wb.chd = []) (h4 : wb.che = []) :
    buildDb wb = Except.error ("NaTType does not support strftime") := by
  have hv : validateSheets wb = Except.ok () := by
    unfold validateSheets
    rw [hm]
  unfold buildDb
  rw [hv, h1, h2, h3, h4]
  rfl

/-- Workbook with all four sheets present and no data rows. -/
def wbC10 : Workbook :=
  { sheetNames := [("CHO"), ("CHT"), ("CHD"), ("CHE")],
    cho := [], cht := [], chd := [], che := [] }

/-- Witness for C10: the empty-but-valid workbook raises. -/
theorem claim_C10_witness :
    buildDb wbC10 = Except.error ("NaTType does not support strftime") :=
  claim_C10 wbC10 (by decide) rfl rfl rfl rfl

/-- Whether an `Except` result is a raised error. -/
def isErr {β : Type} : Except String β → Bool
  | Except.error _ => true
  | Except.ok _ => false

/-- Claim C8: if any sheet's date column contains an unparseable value,
`build_db` raises (the date error propagates to the pipeline level
instead of being coerced to a sentinel), and on this failure no partial
result is returned: the result is an error and equals no `ok` table. -/
theorem claim_C8 (wb : Workbook)
    (hbad : (∃ r ∈ wb.cho, isErr (toDatetime r.date) = true) ∨
            (∃ r ∈ wb.cht, isErr (toDatetime r.date) = true) ∨
            (∃ r ∈ wb.chd, isErr (toDatetime r.date) = true) ∨
            (∃ r ∈ wb.che, isErr (toDatetime r.date) = true)) :
    ∃ msg, buildDb wb = Except.error msg ∧
      ∀ t st, ¬ buildDb wb = Except.ok (t, st) := by
  cases hdb : buildDb wb with
  | error e => exact ⟨e, rfl, fun t st h => Except.noConfusion h⟩
  | ok p =>
    exfalso
    obtain ⟨t, st⟩ := p
    obtain ⟨cho, cht, chd, che, dr, hcho, hcht, hchd, hche, -, -, -⟩ :=
      buildDb_ok_elim wb t st hdb
    rcases hbad with ⟨r, hr, hbadr⟩ | ⟨r, hr, hbadr⟩ | ⟨r, hr, hbadr⟩ | ⟨r, hr, hbadr⟩
    · obtain ⟨y, -, hy⟩ := exMap_ok_mem_in stdRowCHO wb.cho cho hcho r hr
      cases hd : toDatetime r.date with
      | ok d => simp [hd, isErr] at hbadr
      | error e => simp [stdRowCHO, hd] at hy
    · obtain ⟨y, -, hy⟩ := exMap_ok_mem_in stdRowCHT wb.cht cht hcht r hr
      cases hd : toDatetime r.date with
      | ok d => simp [hd, isErr] at hbadr
      | error e => simp [stdRowCHT, hd] at hy
    · obtain ⟨y, -, hy⟩ := exMap_ok_mem_in stdRowCHD wb.chd chd hchd r hr
      cases hd : toDatetime r.date with
      | ok d => simp [hd, isErr] at hbadr
      | error e => simp [stdRowCHD, hd] at hy
    · obtain ⟨y, -, hy⟩ := exMap_ok_mem_in stdRowCHE wb.che che hche r hr
      cases hd : toDatetime r.date with
      | ok d => simp [hd, isErr] at hbadr
      | error e => simp [stdRowCHE, hd] at hy

/-- Workbook whose CHD sheet holds one row with an unparseable date. -/
def wbC8 : Workbook :=
  { sheetNames := [("CHO"), ("CHT"), ("CHD"), ("CHE")],
    cho := [], cht := [],
    chd := [{ date := Cell.str ("not a date"), agentmis := Cell.str ("A1"),
              score := Cell.num 5, sloved := Cell.str ("Yes") }],
    che := [] }

/-- Witness for C8: the bad-date workbook raises and returns no table. -/
theorem claim_C8_witness :
    ∃ msg, buildDb wbC8 = Except.error msg ∧
      ∀ t st, ¬ buildDb wbC8 = Except.ok (t, st) :=
  claim_C8 wbC8 (by decide)

theorem mem_buildBase_iff (cho : List RowCHO) (cht : List RowCHT)
    (chd : List RowCHD) (che : List RowCHE) (k : Key) :
    k ∈ buildBase cho cht chd che ↔
      k ∈ cho.map keyCHO ++ cht.map keyCHT ++ chd.map keyCHD ++ che.map keyCHE := by
  unfold buildBase
  exact mem_dropDuplicates _ _

/-- Claim C1: for every valid workbook (all sheets present, dates
parseable, i.e. `build_db` succeeds), the final KPI table has exactly
one row per distinct (date, agentmis) pair occurring in any of the four
standardized sheets: its key list has no duplicates, contains every
pair from every source sheet and nothing else, and its row count equals
the cardinality of the set union of the four sheets' key pairs. -/
theorem claim_C1 (wb : Workbook) (cho : List RowCHO) (cht : List RowCHT)
    (chd : List RowCHD) (che : List RowCHE) (t : List KpiRow) (st : Stats)
    (hcho : standardizeCHO wb.cho = Except.ok cho)
    (hcht : standardizeCHT wb.cht = Except.ok cht)
    (hchd : standardizeCHD wb.chd = Except.ok chd)
    (hche : standardizeCHE wb.che = Except.ok che)
    (hb : buildDb wb = Except.ok (t, st)) :
    (t.map keyKpi).Nodup ∧
    (∀ k ∈ cho.map keyCHO ++ cht.map keyCHT ++ chd.map keyCHD ++ che.map keyCHE,
      k ∈ t.map keyKpi) ∧
    (∀ k ∈ t.map keyKpi,
      k ∈ cho.map keyCHO ++ cht.map keyCHT ++ chd.map keyCHD ++ che.map keyCHE) ∧
    t.length =
      (cho.map keyCHO ++ cht.map keyCHT ++ chd.map keyCHD ++ che.map keyCHE).toFinset.card := by
  obtain ⟨cho2, cht2, chd2, che2, dr, hcho2, hcht2, hchd2, hche2, hdr, ht, hst⟩ :=
    buildDb_ok_elim wb t st hb
  rw [hcho] at hcho2
  rw [hcht] at hcht2
  rw [hchd] at hchd2
  rw [hche] at hche2
  cases hcho2
  cases hcht2
  cases hchd2
  cases hche2
  subst ht
  refine ⟨?_, ?_, ?_, ?_⟩
  · rw [pipelineTable_map_key]
    exact nodup_dropDuplicates _
  · intro k hk
    rw [pipelineTable_map_key, mem_buildBase_iff]
    exact hk
  · intro k hk
    rw [pipelineTable_map_key, mem_buildBase_iff] at hk
    exact hk
  · rw [pipelineTable_length]
    unfold buildBase
    exact length_dropDuplicates _

/-- A valid workbook exercising duplicate keys within a sheet, keys
shared across sheets, numeric-text and numeric agent identifiers, and
an empty sheet. -/
def wbA : Workbook :=
  { sheetNames := [("CHO"), ("CHT"), ("CHD"), ("CHE")],
    cho := [{ date := Cell.date 20240101, agentmis := Cell.str ("00123"),
              status := Cell.str ("No Show") },
            { date := Cell.date 20240101, agentmis := Cell.str ("00123"),
              status := Cell.null }],
    cht := [{ date := Cell.date 20240102, agentmis := Cell.num 7,
              ans_vol := Cell.num 5, aht := Cell.num 3, art := Cell.null }],
    chd := [{ date := Cell.date 20240102, agentmis := Cell.str ("A2"),
              score := Cell.num 4, sloved := Cell.str ("Yes") },
            { date := Cell.date 20240102, agentmis := Cell.str ("A2"),
              score := Cell.null, sloved := Cell.str ("No") }],
    che := [] }

/-- The standardized CHO sheet of `wbA`. -/
def choA : List RowCHO :=
  [{ date := 20240101, agentmis := "00123", status := Cell.str ("No Show") },
   { date := 20240101, agentmis := "00123", status := Cell.null }]

/-- The standardized CHT sheet of `wbA`. -/
def chtA : List RowCHT :=
  [{ date := 20240102, agentmis := "7", ans_vol := Cell.num 5,
     aht := Cell.num 3, art := Cell.null }]

/-- The standardized CHD sheet of `wbA`. -/
def chdA : List RowCHD :=
  [{ date := 20240102, agentmis := "A2", score := Cell.num 4, sloved := Cell.str ("Yes") },
   { date := 20240102, agentmis := "A2", score := Cell.null, sloved := Cell.str ("No") }]

/-- The standardized CHE sheet of `wbA`. -/
def cheA : List RowCHE := []

/-- The KPI table `build_db` produces for `wbA`. -/
def tblA : List KpiRow := pipelineTable choA chtA chdA cheA

/-- The statistics record `build_db` produces for `wbA`. -/
def stA : Stats := pipelineStats choA chtA chdA cheA ("2024-01-01 to 2024-01-02")

/-- Witness for C1 at the concrete workbook `wbA`. -/
theorem claim_C1_witness :
    (tblA.map keyKpi).Nodup ∧
    (∀ k ∈ choA.map keyCHO ++ chtA.map keyCHT ++ chdA.map keyCHD ++ cheA.map keyCHE,
      k ∈ tblA.map keyKpi) ∧
    (∀ k ∈ tblA.map keyKpi,
      k ∈ choA.map keyCHO ++ chtA.map keyCHT ++ chdA.map keyCHD ++ cheA.map keyCHE) ∧
    tblA.length =
      (choA.map keyCHO ++ chtA.map keyCHT ++ chdA.map keyCHD ++ cheA.map keyCHE).toFinset.card :=
  claim_C1 wbA choA chtA chdA cheA tblA stA rfl rfl rfl rfl rfl

theorem stdRowCHO_ok_agentmis (r : RawRowCHO) (y : RowCHO)
    (h : stdRowCHO r = Except.ok y) : y.agentmis = pyStr r.agentmis := by
  unfold stdRowCHO at h
  cases hd : toDatetime r.date with
  | error e => rw [hd] at h; cases h
  | ok d => rw [hd] at h; cases h; rfl

theorem stdRowCHT_ok_agentmis (r : RawRowCHT) (y : RowCHT)
    (h : stdRowCHT r = Except.ok y) : y.agentmis = pyStr r.agentmis := by
  unfold stdRowCHT at h
  cases hd : toDatetime r.date with
  | error e => rw [hd] at h; cases h
  | ok d => rw [hd] at h; cases h; rfl

theorem stdRowCHD_ok_agentmis (r : RawRowCHD) (y : RowCHD)
    (h : stdRowCHD r = Except.ok y) : y.agentmis = pyStr r.agentmis := by
  unfold stdRowCHD at h
  cases hd : toDatetime r.date with
  | error e => rw [hd] at h; cases h
  | ok d => rw [hd] at h; cases h; rfl

theorem stdRowCHE_ok_agentmis (r : RawRowCHE) (y : RowCHE)
    (h : stdRowCHE r = Except.ok y) : y.agentmis = pyStr r.agentmis := by
  unfold stdRowCHE at h
  cases hd : toDatetime r.date with
  | error e => rw [hd] at h; cases h
  | ok d => rw [hd] at h; cases h; rfl

theorem table_row_of_base_key (cho : List RowCHO) (cht : List RowCHT)
    (chd : List RowCHD) (che : List RowCHE) (k : Key)
    (hk : k ∈ buildBase cho cht chd che) :
    ∃ row ∈ pipelineTable cho cht chd che, row.agentmis = k.2 := by
  have hkm : k ∈ (pipelineTable cho cht chd che).map keyKpi := by
    rw [pipelineTable_map_key]
    exact hk
  obtain ⟨row, hrow, hkeq⟩ := List.mem_map.mp hkm
  exact ⟨row, hrow, congrArg Prod.snd hkeq⟩

/-- Claim C4: an agent identifier that is text in any of the four input
sheets reaches the output unchanged: normalization is the identity on
text cells (no numeric reformatting, leading zeros survive), and for a
successful run the value appears verbatim in the final table. -/
theorem claim_C4 (wb : Workbook) (t : List KpiRow) (st : Stats) (s : String)
    (hb : buildDb wb = Except.ok (t, st))
    (hr : (∃ r ∈ wb.cho, r.agentmis = Cell.str s) ∨
          (∃ r ∈ wb.cht, r.agentmis = Cell.str s) ∨
          (∃ r ∈ wb.chd, r.agentmis = Cell.str s) ∨
          (∃ r ∈ wb.che, r.agentmis = Cell.str s)) :
    pyStr (Cell.str s) = s ∧ ∃ row ∈ t, row.agentmis = s := by
  refine ⟨rfl, ?_⟩
  obtain ⟨cho, cht, chd, che, dr, hcho, hcht, hchd, hche, hdr, ht, hst⟩ :=
    buildDb_ok_elim wb t st hb
  subst ht
  rcases hr with ⟨r, hrm, hs⟩ | ⟨r, hrm, hs⟩ | ⟨r, hrm, hs⟩ | ⟨r, hrm, hs⟩
  · obtain ⟨y, hy, hfy⟩ := exMap_ok_mem_in stdRowCHO wb.cho cho hcho r hrm
    have hya : y.agentmis = s := by
      rw [stdRowCHO_ok_agentmis r y hfy, hs]
      rfl
    have hkb : keyCHO y ∈ buildBase cho cht chd che := by
      rw [mem_buildBase_iff]
      simp only [List.mem_append]
      exact Or.inl (Or.inl (Or.inl (List.mem_map_of_mem keyCHO hy)))
    obtain ⟨row, hrow, hra⟩ := table_row_of_base_key cho cht chd che _ hkb
    refine ⟨row, hrow, ?_⟩
    rw [hra]
    exact hya
  · obtain ⟨y, hy, hfy⟩ := exMap_ok_mem_in stdRowCHT wb.cht cht hcht r hrm
    have hya : y.agentmis = s := by
      rw [stdRowCHT_ok_agentmis r y hfy, hs]
      rfl
    have hkb : keyCHT y ∈ buildBase cho cht chd che := by
      rw [mem_buildBase_iff]
      simp only [List.mem_append]
      exact Or.inl (Or.inl (Or.inr (List.mem_map_of_mem keyCHT hy)))
    obtain ⟨row, hrow, hra⟩ := table_row_of_base_key cho cht chd che _ hkb
    refine ⟨row, hrow, ?_⟩
    rw [hra]
    exact hya
  · obtain ⟨y, hy, hfy⟩ := exMap_ok_mem_in stdRowCHD wb.chd chd hchd r hrm
    have hya : y.agentmis = s := by
      rw [stdRowCHD_ok_agentmis r y hfy, hs]
      rfl
    have hkb : keyCHD y ∈ buildBase cho cht chd che := by
      rw [mem_buildBase_iff]
      simp only [List.mem_append]
      exact Or.inl (Or.inr (List.mem_map_of_mem keyCHD hy))
    obtain ⟨row, hrow, hra⟩ := table_row_of_base_key cho cht chd che _ hkb
    refine ⟨row, hrow, ?_⟩
    rw [hra]
    exact hya
  · obtain ⟨y, hy, hfy⟩ := exMap_ok_mem_in stdRowCHE wb.che che hche r hrm
    have hya : y.agentmis = s := by
      rw [stdRowCHE_ok_agentmis r y hfy, hs]
      rfl
    have hkb : keyCHE y ∈ buildBase cho cht chd che := by
      rw [mem_buildBase_iff]
      simp only [List.mem_append]
      exact Or.inr (List.mem_map_of_mem keyCHE hy)
    obtain ⟨row, hrow, hra⟩ := table_row_of_base_key cho cht chd che _ hkb
    refine ⟨row, hrow, ?_⟩
    rw [hra]
    exact hya

/-- Workbook whose only data row sits in the CHD sheet and carries a
numeric-looking text identifier with leading zeros. -/
def wbD : Workbook :=
  { sheetNames := [("CHO"), ("CHT"), ("CHD"), ("CHE")],
    cho := [], cht := [],
    chd := [{ date := Cell.date 20240105, agentmis := Cell.str ("007"),
              score := Cell.num 5, sloved := Cell.str ("Yes") }],
    che := [] }

/-- The standardized CHD sheet of `wbD`. -/
def chdD : List RowCHD :=
  [{ date := 20240105, agentmis := "007", score := Cell.num 5, sloved := Cell.str ("Yes") }]

/-- The KPI table `build_db` produces for `wbD`. -/
def tblD : List KpiRow := pipelineTable [] [] chdD []

/-- The statistics record `build_db` produces for `wbD`. -/
def stD : Stats := pipelineStats [] [] chdD [] ("2024-01-05 to 2024-01-05")

/-- Witness for C4: an identifier with leading zeros appearing only in
the CHD (satisfaction) sheet survives into the final table. -/
theorem claim_C4_witness :
    pyStr (Cell.str ("007")) = "007" ∧ ∃ row ∈ tblD, row.agentmis = "007" :=
  claim_C4 wbD tblD stD ("007") rfl (by decide)

/-- Claim C5: a successful `build_db` returns the KPI table paired with
a statistics record containing each source sheet's row count, the base
record count (equal to the table's length), the distinct-agent count,
and the date range formatted as start, the word to, then end. -/
theorem claim_C5 (wb : Workbook) (t : List KpiRow) (st : Stats)
    (hb : buildDb wb = Except.ok (t, st)) :
    st.cho_rows = wb.cho.length ∧ st.cht_rows = wb.cht.length ∧
    st.chd_rows = wb.chd.length ∧ st.che_rows = wb.che.length ∧
    st.total_records = t.length ∧
    st.unique_agents = (t.map (fun row => row.agentmis)).toFinset.card ∧
    ∃ lo hi, (t.map (fun row => row.date)).min? = some lo ∧
      (t.map (fun row => row.date)).max? = some hi ∧
      st.date_range = fmtDate lo ++ (" to ") ++ fmtDate hi := by
  obtain ⟨cho, cht, chd, che, dr, hcho, hcht, hchd, hche, hdr, ht, hst⟩ :=
    buildDb_ok_elim wb t st hb
  subst ht
  subst hst
  have hmagent : (pipelineTable cho cht chd che).map (fun row => row.agentmis)
      = (buildBase cho cht chd che).map Prod.snd := by
    have h2 := congrArg (List.map Prod.snd) (pipelineTable_map_key cho cht chd che)
    rw [List.map_map] at h2
    exact h2
  have hmdate : (pipelineTable cho cht chd che).map (fun row => row.date)
      = (buildBase cho cht chd che).map Prod.fst := by
    have h2 := congrArg (List.map Prod.fst) (pipelineTable_map_key cho cht chd che)
    rw [List.map_map] at h2
    exact h2
  refine ⟨exMap_ok_length _ _ _ hcho, exMap_ok_length _ _ _ hcht,
    exMap_ok_length _ _ _ hchd, exMap_ok_length _ _ _ hche,
    (pipelineTable_length cho cht chd che).symm, ?_, ?_⟩
  · show (dropDuplicates ((buildBase cho cht chd che).map Prod.snd)).length = _
    rw [length_dropDuplicates, hmagent]
  · rw [hmdate]
    unfold dateRangeStr at hdr
    cases hlo : ((buildBase cho cht chd che).map Prod.fst).min? with
    | none => rw [hlo] at hdr; cases hdr
    | some lo =>
      cases hhi : ((buildBase cho cht chd che).map Prod.fst).max? with
      | none => rw [hlo, hhi] at hdr; cases hdr
      | some hi =>
        rw [hlo, hhi] at hdr
        cases hdr
        exact ⟨lo, hi, rfl, rfl, rfl⟩

/-- Witness for C5 at the concrete workbook `wbA`. -/
theorem claim_C5_witness :
    stA.cho_rows = wbA.cho.length ∧ stA.cht_rows = wbA.cht.length ∧
    stA.chd_rows = wbA.chd.length ∧ stA.che_rows = wbA.che.length ∧
    stA.total_records = tblA.length ∧
    stA.unique_agents = (tblA.map (fun row => row.agentmis)).toFinset.card ∧
    ∃ lo hi, (tblA.map (fun row => row.date)).min? = some lo ∧
      (tblA.map (fun row => row.date)).max? = some hi ∧
      stA.date_range = fmtDate lo ++ (" to ") ++ fmtDate hi :=
  claim_C5 wbA tblA stA rfl

theorem aggregateChd_fields (rows : List RowCHD) (a : AggCHD)
    (ha : a ∈ aggregateChd rows) :
    a.surveyed_count = ((groupOf keyCHD rows (keyAggCHD a)).filter
      (fun r => cellNonNull r.score)).length ∧
    a.solved_count = ((groupOf keyCHD rows (keyAggCHD a)).filter
      (fun r => pyLower (pyStr r.sloved) = "yes")).length ∧
    a.not_solved_count = ((groupOf keyCHD rows (keyAggCHD a)).filter
      (fun r => ¬ pyLower (pyStr r.sloved) = "yes")).length ∧
    a.csat_count = csat (scoreDtypeNumeric rows)
      ((groupOf keyCHD rows (keyAggCHD a)).map (fun r => r.score)) ∧
    a.dsat_count = dsat (scoreDtypeNumeric rows)
      ((groupOf keyCHD rows (keyAggCHD a)).map (fun r => r.score)) := by
  simp only [aggregateChd] at ha
  obtain ⟨k, hk, rfl⟩ := List.mem_map.mp ha
  exact ⟨rfl, rfl, rfl, rfl, rfl⟩

theorem aggregateCho_fields (rows : List RowCHO) (a : AggCHO)
    (ha : a ∈ aggregateCho rows) :
    a.absent = ((groupOf keyCHO rows (keyAggCHO a)).filter
      (fun r => pyLower (pyStr r.status) = "no show")).length ∧
    a.scheduled = ((groupOf keyCHO rows (keyAggCHO a)).filter
      (fun r => ¬ pyLower (pyStr r.status) ∈ (["off"] : List String))).length := by
  simp only [aggregateCho] at ha
  obtain ⟨k, hk, rfl⟩ := List.mem_map.mp ha
  exact ⟨rfl, rfl⟩

theorem length_filter_add_length_filter_not {α : Type} (l : List α) (p : α → Prop)
    [DecidablePred p] :
    (l.filter (fun x => p x)).length + (l.filter (fun x => ¬ p x)).length = l.length := by
  induction l with
  | nil => rfl
  | cons x xs ih =>
    by_cases hx : p x <;> simp [List.filter_cons, hx, decide_not] at ih ⊢ <;> omega

theorem length_filter_eq_add_of_imp {α : Type} (l : List α) (c p : α → Prop)
    [DecidablePred c] [DecidablePred p] (h : ∀ x, c x → p x) :
    (l.filter (fun x => p x)).length =
      (l.filter (fun x => c x)).length + (l.filter (fun x => ¬ c x ∧ p x)).length := by
  induction l with
  | nil => rfl
  | cons x xs ih =>
    by_cases hc : c x
    · have hp := h x hc
      simp [List.filter_cons, hc, hp, ih]
      omega
    · by_cases hp : p x
      · simp [List.filter_cons, hc, hp, ih]
        omega
      · simp [List.filter_cons, hc, hp, ih]

theorem filter_eq_filter_of_excl {α : Type} (l : List α) (c p : α → Prop)
    [DecidablePred c] [DecidablePred p] (h : ∀ x, c x → ¬ p x) :
    l.filter (fun x => p x) = l.filter (fun x => ¬ c x ∧ p x) := by
  apply List.filter_congr
  intro x hx
  by_cases hc : c x
  · simp [hc, h x hc]
  · simp [hc]

/-- Claim C6: for every (date, agentmis) group of the CHD sheet, when
the score column's dtype is numeric, `csat_count` counts the scores
equal to 4 or 5 and `dsat_count` the scores equal to 1; when the dtype
is non-numeric, both are 0 for the whole group, with no per-value
coercion even for values that look numeric. -/
theorem claim_C6 (rows : List RowCHD) (a : AggCHD) (ha : a ∈ aggregateChd rows) :
    (scoreDtypeNumeric rows = true →
      a.csat_count = ((groupOf keyCHD rows (keyAggCHD a)).filter
        (fun r => r.score = Cell.num 4 ∨ r.score = Cell.num 5)).length ∧
      a.dsat_count = ((groupOf keyCHD rows (keyAggCHD a)).filter
        (fun r => r.score = Cell.num 1)).length) ∧
    (scoreDtypeNumeric rows = false →
      a.csat_count = 0 ∧ a.dsat_count = 0) := by
  obtain ⟨-, -, -, hcs, hds⟩ := aggregateChd_fields rows a ha
  constructor
  · intro hsn
    rw [hcs, hds]
    unfold csat dsat
    rw [hsn]
    constructor
    · rw [if_pos rfl, List.filter_map, List.length_map]
      rfl
    · rw [if_pos rfl, List.filter_map, List.length_map]
      rfl
  · intro hsn
    rw [hcs, hds]
    unfold csat dsat
    rw [hsn]
    simp

/-- A CHD sheet whose score column mixes a number with numeric-looking
text, forcing a non-numeric dtype. -/
def chdB : List RowCHD :=
  [{ date := 20240103, agentmis := "B1", score := Cell.num 4, sloved := Cell.str ("Yes") },
   { date := 20240103, agentmis := "B1", score := Cell.str ("4"), sloved := Cell.null }]

/-- The aggregate row `aggregate_chd` produces for `chdB`. -/
def aggB : AggCHD :=
  { date := 20240103, agentmis := "B1", surveyed_count := 2, solved_count := 1,
    not_solved_count := 1, csat_count := 0, dsat_count := 0 }

/-- Witness for C6: text among the scores zeroes the whole group's
csat/dsat, even though a literal 4 is present. -/
theorem claim_C6_witness :
    (scoreDtypeNumeric chdB = true →
      aggB.csat_count = ((groupOf keyCHD chdB (keyAggCHD aggB)).filter
        (fun r => r.score = Cell.num 4 ∨ r.score = Cell.num 5)).length ∧
      aggB.dsat_count = ((groupOf keyCHD chdB (keyAggCHD aggB)).filter
        (fun r => r.score = Cell.num 1)).length) ∧
    (scoreDtypeNumeric chdB = false →
      aggB.csat_count = 0 ∧ aggB.dsat_count = 0) :=
  claim_C6 chdB aggB (by decide)

/-- Claim C7: for every (date, agentmis) group of the CHD sheet,
`solved_count` counts exactly the rows whose `sloved` value
lower-cases to the affirmative marker, `not_solved_count` counts
exactly the remaining rows (missing and other values included), and
the two always add up to the group's row count. -/
theorem claim_C7 (rows : List RowCHD) (a : AggCHD) (ha : a ∈ aggregateChd rows) :
    a.solved_count = ((groupOf keyCHD rows (keyAggCHD a)).filter
      (fun r => pyLower (pyStr r.sloved) = "yes")).length ∧
    a.not_solved_count = ((groupOf keyCHD rows (keyAggCHD a)).filter
      (fun r => ¬ pyLower (pyStr r.sloved) = "yes")).length ∧
    a.solved_count + a.not_solved_count = (groupOf keyCHD rows (keyAggCHD a)).length := by
  obtain ⟨-, hs, hn, -, -⟩ := aggregateChd_fields rows a ha
  refine ⟨hs, hn, ?_⟩
  rw [hs, hn]
  exact length_filter_add_length_filter_not _ _

/-- The aggregate row `aggregate_chd` produces for `chdA` (the spec's
Yes/No example for (2024-01-02, A2)). -/
def aggA : AggCHD :=
  { date := 20240102, agentmis := "A2", surveyed_count := 1, solved_count := 1,
    not_solved_count := 1, csat_count := 1, dsat_count := 0 }

/-- Witness for C7 at the spec's two-row Yes/No example. -/
theorem claim_C7_witness :
    aggA.solved_count = ((groupOf keyCHD chdA (keyAggCHD aggA)).filter
      (fun r => pyLower (pyStr r.sloved) = "yes")).length ∧
    aggA.not_solved_count = ((groupOf keyCHD chdA (keyAggCHD aggA)).filter
      (fun r => ¬ pyLower (pyStr r.sloved) = "yes")).length ∧
    aggA.solved_count + aggA.not_solved_count = (groupOf keyCHD chdA (keyAggCHD aggA)).length :=
  claim_C7 chdA aggA (by decide)

/-- Claim C9: for every (date, agentmis) group of the CHO sheet, a row
with a missing status is counted in `scheduled` and not in `absent`:
`scheduled` splits as all missing-status rows plus the non-missing rows
whose lower-cased text is not the off marker, while `absent` counts
only non-missing rows equal to the no-show marker. -/
theorem claim_C9 (rows : List RowCHO) (a : AggCHO) (ha : a ∈ aggregateCho rows) :
    a.scheduled = ((groupOf keyCHO rows (keyAggCHO a)).filter
        (fun r => r.status = Cell.null)).length
      + ((groupOf keyCHO rows (keyAggCHO a)).filter
          (fun r => ¬ r.status = Cell.null ∧
            ¬ pyLower (pyStr r.status) ∈ (["off"] : List String))).length ∧
    a.absent = ((groupOf keyCHO rows (keyAggCHO a)).filter
      (fun r => ¬ r.status = Cell.null ∧ pyLower (pyStr r.status) = "no show")).length := by
  obtain ⟨hab, hsc⟩ := aggregateCho_fields rows a ha
  constructor
  · rw [hsc]
    exact length_filter_eq_add_of_imp _ _ _ (fun r hr => by rw [hr]; decide)
  · rw [hab]
    exact congrArg List.length
      (filter_eq_filter_of_excl _ _ _ (fun r hr => by rw [hr]; decide))

/-- The aggregate row `aggregate_cho` produces for `choA` (one no-show
row and one missing-status row for the same key). -/
def aggC : AggCHO :=
  { date := 20240101, agentmis := "00123", absent := 1, scheduled := 2 }

/-- Witness for C9: the missing-status row of `choA` is counted in
`scheduled` (2 = 1 missing + 1 non-off) and not in `absent`. -/
theorem claim_C9_witness :
    aggC.scheduled = ((groupOf keyCHO choA (keyAggCHO aggC)).filter
        (fun r => r.status = Cell.null)).length
      + ((groupOf keyCHO choA (keyAggCHO aggC)).filter
          (fun r => ¬ r.status = Cell.null ∧
            ¬ pyLower (pyStr r.status) ∈ (["off"] : List String))).length ∧
    aggC.absent = ((groupOf keyCHO choA (keyAggCHO aggC)).filter
      (fun r => ¬ r.status = Cell.null ∧ pyLower (pyStr r.status) = "no show")).length :=
  claim_C9 choA aggC (by decide)

theorem mem_keys_aggregateCho (rows : List RowCHO) (k : Key) :
    k ∈ (aggregateCho rows).map keyAggCHO ↔ k ∈ rows.map keyCHO := by
  rw [map_key_aggregateCho]
  exact mem_groupKeys _ _ _

theorem mem_keys_aggregateCht (rows : List RowCHT) (k : Key) :
    k ∈ (aggregateCht rows).map keyAggCHT ↔ k ∈ rows.map keyCHT := by
  rw [map_key_aggregateCht]
  exact mem_groupKeys _ _ _

theorem mem_keys_aggregateChd (rows : List RowCHD) (k : Key) :
    k ∈ (aggregateChd rows).map keyAggCHD ↔ k ∈ rows.map keyCHD := by
  rw [map_key_aggregateChd]
  exact mem_groupKeys _ _ _

theorem mem_keys_aggregateChe (rows : List RowCHE) (k : Key) :
    k ∈ (aggregateChe rows).map keyAggCHE ↔ k ∈ rows.map keyCHE := by
  rw [map_key_aggregateChe]
  exact mem_groupKeys _ _ _

theorem mergeCho_elim (base : List Key) (agg : List AggCHO) (c : Row1)
    (hc : c ∈ mergeCho base agg) :
    keyRow1 c ∈ base ∧
    (¬ keyRow1 c ∈ agg.map keyAggCHO → c.absent = none ∧ c.scheduled = none) := by
  unfold mergeCho at hc
  obtain ⟨b, hb, hcase⟩ := leftMerge_mem_cases _ _ _ _ _ _ _ hc
  rcases hcase with ⟨rfl, hno⟩ | ⟨a, ha, hk, rfl⟩
  · exact ⟨hb, fun _ => ⟨rfl, rfl⟩⟩
  · refine ⟨hb, fun hn => ?_⟩
    exfalso
    have hm := List.mem_map_of_mem keyAggCHO ha
    rw [hk] at hm
    exact hn hm

theorem mergeCht_elim (base : List Row1) (agg : List AggCHT) (c : Row2)
    (hc : c ∈ mergeCht base agg) :
    ∃ b ∈ base, keyRow2 c = keyRow1 b ∧
      c.absent = b.absent ∧ c.scheduled = b.scheduled ∧
      (¬ keyRow2 c ∈ agg.map keyAggCHT →
        c.ans_vol = none ∧ c.aht_min = none ∧ c.art_min = none) := by
  unfold mergeCht at hc
  obtain ⟨b, hb, hcase⟩ := leftMerge_mem_cases _ _ _ _ _ _ _ hc
  rcases hcase with ⟨rfl, hno⟩ | ⟨a, ha, hk, rfl⟩
  · exact ⟨b, hb, rfl, rfl, rfl, fun _ => ⟨rfl, rfl, rfl⟩⟩
  · refine ⟨b, hb, rfl, rfl, rfl, fun hn => ?_⟩
    exfalso
    have hm := List.mem_map_of_mem keyAggCHT ha
    rw [hk] at hm
    exact hn hm

theorem mergeChd_elim (base : List Row2) (agg : List AggCHD) (c : Row3)
    (hc : c ∈ mergeChd base agg) :
    ∃ b ∈ base, keyRow3 c = keyRow2 b ∧
      c.absent = b.absent ∧ c.scheduled = b.scheduled ∧
      c.ans_vol = b.ans_vol ∧ c.aht_min = b.aht_min ∧ c.art_min = b.art_min ∧
      (¬ keyRow3 c ∈ agg.map keyAggCHD →
        c.surveyed_count = none ∧ c.solved_count = none ∧
        c.not_solved_count = none ∧ c.csat_count = none ∧ c.dsat_count = none) := by
  unfold mergeChd at hc
  obtain ⟨b, hb, hcase⟩ := leftMerge_mem_cases _ _ _ _ _ _ _ hc
  rcases hcase with ⟨rfl, hno⟩ | ⟨a, ha, hk, rfl⟩
  · exact ⟨b, hb, rfl, rfl, rfl, rfl, rfl, rfl, fun _ => ⟨rfl, rfl, rfl, rfl, rfl⟩⟩
  · refine ⟨b, hb, rfl, rfl, rfl, rfl, rfl, rfl, fun hn => ?_⟩
    exfalso
    have hm := List.mem_map_of_mem keyAggCHD ha
    rw [hk] at hm
    exact hn hm

theorem mergeChe_elim (base : List Row3) (agg : List AggCHE) (c : Row4)
    (hc : c ∈ mergeChe base agg) :
    ∃ b ∈ base, keyRow4 c = keyRow3 b ∧
      c.absent = b.absent ∧ c.scheduled = b.scheduled ∧
      c.ans_vol = b.ans_vol ∧ c.aht_min = b.aht_min ∧ c.art_min = b.art_min ∧
      c.surveyed_count = b.surveyed_count ∧ c.solved_count = b.solved_count ∧
      c.not_solved_count = b.not_solved_count ∧ c.csat_count = b.csat_count ∧
      c.dsat_count = b.dsat_count ∧
      (¬ keyRow4 c ∈ agg.map keyAggCHE →
        c.evaluated_count = none ∧ c.pass_eval_count = none ∧
        c.fail_eval_count = none ∧ c.rc1_fail = none ∧ c.rc2_fail = none ∧
        c.rc_fail = none ∧ c.bc_fail = none ∧ c.cc_fail = none) := by
  unfold mergeChe at hc
  obtain ⟨b, hb, hcase⟩ := leftMerge_mem_cases _ _ _ _ _ _ _ hc
  rcases hcase with ⟨rfl, hno⟩ | ⟨a, ha, hk, rfl⟩
  · exact ⟨b, hb, rfl, rfl, rfl, rfl, rfl, rfl, rfl, rfl, rfl, rfl, rfl,
      fun _ => ⟨rfl, rfl, rfl, rfl, rfl, rfl, rfl, rfl⟩⟩
  · refine ⟨b, hb, rfl, rfl, rfl, rfl, rfl, rfl, rfl, rfl, rfl, rfl, rfl, fun hn => ?_⟩
    exfalso
    have hm := List.mem_map_of_mem keyAggCHE ha
    rw [hk] at hm
    exact hn hm

/-- Claim C2: in a successful run's table, a base row with no matching
rows in a given source sheet carries exactly 0 in each of that sheet's
metric columns (the left joins put a missing value there and the final
zero-fill replaces it; the typed result has no missing values at all). -/
theorem claim_C2 (wb : Workbook) (cho : List RowCHO) (cht : List RowCHT)
    (chd : List RowCHD) (che : List RowCHE) (t : List KpiRow) (st : Stats)
    (hcho : standardizeCHO wb.cho = Except.ok cho)
    (hcht : standardizeCHT wb.cht = Except.ok cht)
    (hchd : standardizeCHD wb.chd = Except.ok chd)
    (hche : standardizeCHE wb.che = Except.ok che)
    (hb : buildDb wb = Except.ok (t, st)) :
    ∀ row ∈ t,
      (¬ (row.date, row.agentmis) ∈ cho.map keyCHO →
        row.absent = 0 ∧ row.scheduled = 0) ∧
      (¬ (row.date, row.agentmis) ∈ cht.map keyCHT →
        row.ans_vol = 0 ∧ row.aht_min = 0 ∧ row.art_min = 0) ∧
      (¬ (row.date, row.agentmis) ∈ chd.map keyCHD →
        row.surveyed_count = 0 ∧ row.solved_count = 0 ∧ row.not_solved_count = 0 ∧
        row.csat_count = 0 ∧ row.dsat_count = 0) ∧
      (¬ (row.date, row.agentmis) ∈ che.map keyCHE →
        row.evaluated_count = 0 ∧ row.pass_eval_count = 0 ∧ row.fail_eval_count = 0 ∧
        row.rc1_fail = 0 ∧ row.rc2_fail = 0 ∧ row.rc_fail = 0 ∧
        row.bc_fail = 0 ∧ row.cc_fail = 0) := by
  obtain ⟨cho2, cht2, chd2, che2, dr, hcho2, hcht2, hchd2, hche2, hdr, ht, hst⟩ :=
    buildDb_ok_elim wb t st hb
  rw [hcho] at hcho2
  rw [hcht] at hcht2
  rw [hchd] at hchd2
  rw [hche] at hche2
  cases hcho2
  cases hcht2
  cases hchd2
  cases hche2
  subst ht
  intro row hrow
  unfold pipelineTable fillna at hrow
  obtain ⟨c4, hc4, hre⟩ := List.mem_map.mp hrow
  obtain ⟨b3, hb3, hk3, p1, p2, p3, p4, p5, p6, p7, p8, p9, p10, hm4⟩ :=
    mergeChe_elim _ _ _ hc4
  obtain ⟨b2, hb2, hk2, q1, q2, q3, q4, q5, hm3⟩ := mergeChd_elim _ _ _ hb3
  obtain ⟨b1, hb1, hk1, r1, r2, hm2⟩ := mergeCht_elim _ _ _ hb2
  obtain ⟨hbase, hm1⟩ := mergeCho_elim _ _ _ hb1
  subst hre
  refine ⟨fun hn => ?_, fun hn => ?_, fun hn => ?_, fun hn => ?_⟩
  · have hn2 : ¬ keyRow1 b1 ∈ (aggregateCho cho).map keyAggCHO := by
      rw [mem_keys_aggregateCho, ← hk1, ← hk2, ← hk3]
      exact hn
    obtain ⟨ha1, ha2⟩ := hm1 hn2
    constructor
    · show c4.absent.getD 0 = 0
      rw [p1, q1, r1, ha1]
      rfl
    · show c4.scheduled.getD 0 = 0
      rw [p2, q2, r2, ha2]
      rfl
  · have hn2 : ¬ keyRow2 b2 ∈ (aggregateCht cht).map keyAggCHT := by
      rw [mem_keys_aggregateCht, ← hk2, ← hk3]
      exact hn
    obtain ⟨ha1, ha2, ha3⟩ := hm2 hn2
    refine ⟨?_, ?_, ?_⟩
    · show c4.ans_vol.getD 0 = 0
      rw [p3, q3, ha1]
      rfl
    · show c4.aht_min.getD 0 = 0
      rw [p4, q4, ha2]
      rfl
    · show c4.art_min.getD 0 = 0
      rw [p5, q5, ha3]
      rfl
  · have hn2 : ¬ keyRow3 b3 ∈ (aggregateChd chd).map keyAggCHD := by
      rw [mem_keys_aggregateChd, ← hk3]
      exact hn
    obtain ⟨ha1, ha2, ha3, ha4, ha5⟩ := hm3 hn2
    refine ⟨?_, ?_, ?_, ?_, ?_⟩
    · show c4.surveyed_count.getD 0 = 0
      rw [p6, ha1]
      rfl
    · show c4.solved_count.getD 0 = 0
      rw [p7, ha2]
      rfl
    · show c4.not_solved_count.getD 0 = 0
      rw [p8, ha3]
      rfl
    · show c4.csat_count.getD 0 = 0
      rw [p9, ha4]
      rfl
    · show c4.dsat_count.getD 0 = 0
      rw [p10, ha5]
      rfl
  · have hn2 : ¬ keyRow4 c4 ∈ (aggregateChe che).map keyAggCHE := by
      rw [mem_keys_aggregateChe]
      exact hn
    obtain ⟨ha1, ha2, ha3, ha4, ha5, ha6, ha7, ha8⟩ := hm4 hn2
    refine ⟨?_, ?_, ?_, ?_, ?_, ?_, ?_, ?_⟩
    · show c4.evaluated_count.getD 0 = 0
      rw [ha1]
      rfl
    · show c4.pass_eval_count.getD 0 = 0
      rw [ha2]
      rfl
    · show c4.fail_eval_count.getD 0 = 0
      rw [ha3]
      rfl
    · show c4.rc1_fail.getD 0 = 0
      rw [ha4]
      rfl
    · show c4.rc2_fail.getD 0 = 0
      rw [ha5]
      rfl
    · show c4.rc_fail.getD 0 = 0
      rw [ha6]
      rfl
    · show c4.bc_fail.getD 0 = 0
      rw [ha7]
      rfl
    · show c4.cc_fail.getD 0 = 0
      rw [ha8]
      rfl

/-- The row of `tblA` for the key coming only from the CHT sheet. -/
def rowB : KpiRow :=
  { date := 20240102, agentmis := "7", absent := 0, scheduled := 0,
    ans_vol := 5, aht_min := 3, art_min := 0,
    surveyed_count := 0, solved_count := 0, not_solved_count := 0,
    csat_count := 0, dsat_count := 0,
    evaluated_count := 0, pass_eval_count := 0, fail_eval_count := 0,
    rc1_fail := 0, rc2_fail := 0, rc_fail := 0, bc_fail := 0, cc_fail := 0 }

/-- Witness for C2: the base row of `wbA` covered only by the CHT sheet
has exactly 0 in every CHO, CHD and CHE metric column. -/
theorem claim_C2_witness :
    (rowB.absent = 0 ∧ rowB.scheduled = 0) ∧
    (rowB.surveyed_count = 0 ∧ rowB.solved_count = 0 ∧ rowB.not_solved_count = 0 ∧
      rowB.csat_count = 0 ∧ rowB.dsat_count = 0) ∧
    (rowB.evaluated_count = 0 ∧ rowB.pass_eval_count = 0 ∧ rowB.fail_eval_count = 0 ∧
      rowB.rc1_fail = 0 ∧ rowB.rc2_fail = 0 ∧ rowB.rc_fail = 0 ∧
      rowB.bc_fail = 0 ∧ rowB.cc_fail = 0) := by
  have h := claim_C2 wbA choA chtA chdA cheA tblA stA rfl rfl rfl rfl rfl rowB (by decide)
  exact ⟨h.1 (by decide), h.2.2.1 (by decide), h.2.2.2 (by decide)⟩

end KpiGen
